import Mathlib

/-!
Verification development for the agent orchestration core: a shallow
embedding of the Python sources (core/tool_manager.py, core/tool_prompt.py,
core/agent_kernel.py, core/event_bus.py, tools/base_tool.py,
reasoning/llm_reasoner.py) together with theorems settling the frozen
claims about the natural-language specification.

Modelling conventions:
* Python JSON-like values are the inductive `JValue`; dicts are ordered
  association lists with unique keys (Python dict insertion order).
* External collaborators (the inference backend, `json.loads`, numeric
  parsers, the memory store, the injected `Reasoner`) are oracles: plain
  function parameters returning `Except` (an `Except.error` models a
  raised Python exception) or `Option` (parse failure).
* Machine floats are modelled as `Rat` (only their type classification and
  parse success/failure matter to any claim, never rounding).
-/

inductive JValue where
  | null
  | bool (b : Bool)
  | int (n : Int)
  | num (q : Rat)
  | str (s : String)
  | arr (elems : List JValue)
  | obj (fields : List (String × JValue))
deriving Repr, BEq

/-- Python dict lookup `d.get(k)` on an ordered association list
(first occurrence wins; a well-formed dict has unique keys). -/
def pyGet (fields : List (String × JValue)) (k : String) : Option JValue :=
  (fields.find? (fun p => p.1 == k)).map (fun p => p.2)

/-- `v.get(k)` when `v` is a dict; raises `AttributeError` otherwise
(`.get` on a non-dict Python value). -/
def dictGetE (v : JValue) (k : String) : Except String (Option JValue) :=
  match v with
  | .obj fields => .ok (pyGet fields k)
  | _ => .error "AttributeError: object has no attribute get"

/-- Python dict assignment `d[k] = v`: replace in place if the key exists,
append otherwise (insertion-order semantics). -/
def dictSet (fields : List (String × JValue)) (k : String) (v : JValue) :
    List (String × JValue) :=
  if (fields.find? (fun p => p.1 == k)).isSome then
    fields.map (fun p => if p.1 == k then (k, v) else p)
  else
    fields ++ [(k, v)]

/-- Python truthiness of a JSON-like value. -/
def pyTruthy : JValue → Bool
  | .null => false
  | .bool b => b
  | .int n => n != 0
  | .num q => q != 0
  | .str s => s != ""
  | .arr elems => !elems.isEmpty
  | .obj fields => !fields.isEmpty

/-- Python `str()` rendering, exact on the cases any claim touches
(strings, ints, bools, None); containers and floats get a nominal
rendering (they only ever feed free-form message text). -/
def pyStr : JValue → String
  | .null => "None"
  | .bool b => if b then "True" else "False"
  | .int n => toString n
  | .num q => toString q
  | .str s => s
  | .arr _ => "[...]"
  | .obj _ => "\x7b...\x7d"

def pyStrOpt : Option JValue → String
  | none => "None"
  | some v => pyStr v

/-- Substring test backing Python's `needle in haystack` for strings
(all needles in the source are nonempty). -/
def containsSub (haystack needle : String) : Bool :=
  (haystack.splitOn needle).length != 1

/-- Python `str.strip()`: drop leading and trailing whitespace
(character-level, which is also what Python does). -/
def pyStrip (s : String) : String :=
  ⟨((s.data.dropWhile Char.isWhitespace).reverse.dropWhile
      Char.isWhitespace).reverse⟩

/-- Python `str.lower()` (ASCII case mapping, which covers every string
the sources compare). -/
def pyLower (s : String) : String :=
  ⟨s.data.map Char.toLower⟩

/-- Python slicing `s[:n]` (by characters). -/
def pyTake (s : String) (n : Nat) : String :=
  ⟨s.data.take n⟩

/-- Python `k in v`: key test on dicts, substring test on strings,
membership on lists; `TypeError` on non-container values. -/
def pyIn (k : String) (v : JValue) : Except String Bool :=
  match v with
  | .obj fields => .ok (pyGet fields k).isSome
  | .str s => .ok (containsSub s k)
  | .arr elems => .ok (elems.any (fun e => e == .str k))
  | _ => .error "TypeError: argument is not iterable"

/-! ## tools/base_tool.py — schema inference from the canonical example -/

/-- `infer_type` from `Tool.example_schema` (tools/base_tool.py:26-32).
Python checks `bool` before `int`; `None` and strings fall to "string". -/
def infer_type : JValue → String
  | .bool _ => "boolean"
  | .int _ => "integer"
  | .num _ => "number"
  | .obj _ => "object"
  | .arr _ => "array"
  | _ => "string"

/-- `Tool.example_schema` (tools/base_tool.py:21-42). The argument is the
result of `json.loads` on the cleaned `example_usage` text (`none` when
parsing raised). Any non-dict example makes `example.keys()` raise, and
the `except` branch returns the bare object schema. -/
def example_schema : Option JValue → JValue
  | some (.obj fields) =>
      .obj [("type", .str "object"),
            ("required", .arr (fields.map (fun p => .str p.1))),
            ("properties",
              .obj (fields.map (fun p =>
                (p.1, .obj [("type", .str (infer_type p.2))]))))]
  | _ => .obj [("type", .str "object")]

/-! ## jsonschema subset

The repository only ever validates against object schemas built from
`type` / `required` / `properties` with atomic-type subschemas (either a
type name or a list of type names, as in `LLM_RESPONSE_SCHEMA`). The
checker below implements exactly that subset of `jsonschema.validate`:
`required` and `properties` constrain only object instances, a property
subschema constrains only a present key, and booleans are not numbers. -/

def typeMatches (t : String) (v : JValue) : Bool :=
  if t == "boolean" then (match v with | .bool _ => true | _ => false)
  else if t == "integer" then
    (match v with
     | .int _ => true
     | .num q => q.den == 1
     | _ => false)
  else if t == "number" then
    (match v with | .int _ => true | .num _ => true | _ => false)
  else if t == "object" then (match v with | .obj _ => true | _ => false)
  else if t == "array" then (match v with | .arr _ => true | _ => false)
  else if t == "string" then (match v with | .str _ => true | _ => false)
  else if t == "null" then (match v with | .null => true | _ => false)
  else true

/-- Lookup on a schema represented as a JSON object. -/
def jGet (v : JValue) (k : String) : Option JValue :=
  match v with
  | .obj fields => pyGet fields k
  | _ => none

/-- The `required` list of a schema object. -/
def requiredKeys (schema : JValue) : List String :=
  match jGet schema "required" with
  | some (.arr ks) =>
      ks.filterMap (fun v => match v with | .str s => some s | _ => none)
  | _ => []

/-- The `properties` entries of a schema object. -/
def schemaProps (schema : JValue) : List (String × JValue) :=
  match jGet schema "properties" with
  | some (.obj props) => props
  | _ => []

/-- The atomic `type` validator of a (sub)schema: a type name or a list of
alternatives; no constraint when absent. -/
def typeOk (schema : JValue) (v : JValue) : Bool :=
  match jGet schema "type" with
  | some (.str t) => typeMatches t v
  | some (.arr ts) =>
      ts.any (fun tv => match tv with | .str t => typeMatches t v | _ => false)
  | _ => true

/-- The required keys of `schema` that are absent from an object
instance. -/
def missingRequired (inst schema : JValue) : List String :=
  match inst with
  | .obj _ => (requiredKeys schema).filter (fun k => (jGet inst k).isNone)
  | _ => []

/-- `jsonschema.validate` success on the repository's schema shapes. -/
def validateBySchema (inst schema : JValue) : Bool :=
  typeOk schema inst &&
  (match inst with
   | .obj _ =>
      (requiredKeys schema).all (fun k => (jGet inst k).isSome) &&
      (schemaProps schema).all (fun p =>
        match jGet inst p.1 with
        | none => true
        | some v => typeOk p.2 v)
   | _ => true)

/-- The message of the first violation, mirroring jsonschema's messages
for the validators the repository's schemas use. -/
def validationMessage (inst schema : JValue) : String :=
  if !typeOk schema inst then
    pyStr inst ++ " is not of type \x27object\x27"
  else
    match missingRequired inst schema with
    | k :: _ => "\x27" ++ k ++ "\x27 is a required property"
    | [] => "is not of the expected type"

/-! ## core/tool_manager.py — registry and input validation -/

/-- A tool as the registry sees it. `exampleUsage` is `none` when the
object has no `example_usage` attribute (the `hasattr` check in
`register_tool`); `example` is the `json.loads` result of the cleaned
example text (`none` when parsing raised); `run` is the tool body
(an `Except.error` models a raised exception). -/
structure MTool where
  name : String
  description : String
  exampleUsage : Option String
  exampleJson : Option JValue
  run : JValue → Except String String

/-- `ToolManager.get_tool_by_name` (core/tool_manager.py:37-39): dict
lookup on the registration-ordered registry. -/
def lookupTool (tools : List MTool) (name : String) : Option MTool :=
  tools.find? (fun t => t.name == name)

/-- `ToolManager.register_tool` (core/tool_manager.py:15-31). Returns the
(possibly updated) registry together with the raised error, if any; the
source raises before the dict assignment, so on failure the registry is
returned unchanged. -/
def register_tool (reg : List MTool) (t : MTool) :
    List MTool × Option String :=
  if t.name == "" || t.description == "" || t.exampleUsage.isNone then
    (reg, some ("[ToolManager] Invalid tool metadata: " ++ t.name))
  else if (lookupTool reg t.name).isSome then
    (reg, some ("Tool \x27" ++ t.name ++ "\x27 is already registered."))
  else
    (reg ++ [t], none)

/-- The schema-format conversion inside `validate_input`
(core/tool_manager.py:67-84), applied when the schema dict has no
`properties` key. -/
def convertSchema (schema : JValue) : JValue :=
  match schema with
  | .obj fields =>
      .obj [("type", .str "object"),
            ("properties",
              .obj (fields.map (fun p =>
                match p.2 with
                | .obj _ => (p.1, p.2)
                | _ => (p.1, .obj [("type", .str "string")])))),
            ("required",
              .arr (fields.filterMap (fun p =>
                match p.2 with
                | .obj sub =>
                    if pyTruthy ((pyGet sub "required").getD .null) then
                      some (.str p.1)
                    else none
                | _ => none)))]
  | _ => schema

/-- `ToolManager.validate_input` (core/tool_manager.py:50-92). Every
`Tool` instance has the `example_schema` property, so the schema is the
one inferred from the canonical example. -/
def validate_input (tools : List MTool) (toolName : String)
    (inputData : JValue) : Bool × String :=
  match lookupTool tools toolName with
  | none => (false, "Tool \x27" ++ toolName ++ "\x27 not found.")
  | some tool =>
      let schema := example_schema tool.exampleJson
      let schema2 :=
        if (jGet schema "properties").isNone then convertSchema schema
        else schema
      if validateBySchema inputData schema2 then (true, "")
      else (false, validationMessage inputData schema2)

/-! ## core/tool_prompt.py — FieldCompleter -/

/-- The structured content of the prompt `_build_field_prompt` renders
(core/tool_prompt.py:114-150). The secondary reasoning call is an
arbitrary oracle, so the rendering itself is folded into the oracle and
only its inputs are kept. -/
structure FieldQuery where
  toolName : String
  fieldName : String
  fieldType : String
  fieldDescription : String
  userInput : String
  currentInput : List (String × JValue)
  customPrompt : String
deriving Repr

/-- `_parse_field_value` (core/tool_prompt.py:152-170). `pInt`, `pFloat`
and `pJson` are the Python `int()`, `float()` and `json.loads` library
parsers (`none` models the `ValueError` / `JSONDecodeError` the `except`
catches); any such failure falls back to the trimmed raw string. -/
def parse_field_value (pInt : String → Option Int) (pFloat : String → Option Rat)
    (pJson : String → Option JValue) (response : String) (fieldType : String) :
    JValue :=
  let r := pyStrip response
  if fieldType == "boolean" then
    .bool (["true", "yes", "1", "on"].contains (pyLower r))
  else if fieldType == "integer" then
    match pInt r with
    | some n => .int n
    | none => .str r
  else if fieldType == "number" then
    match pFloat r with
    | some q => .num q
    | none => .str r
  else if fieldType == "array" || fieldType == "object" then
    match pJson r with
    | some v => v
    | none => .str r
  else
    .str r

/-- `_fill_single_field` (core/tool_prompt.py:78-112). `resolver` is the
injected `Reasoner`'s `think` on the rendered field prompt (an
`Except.error` models a raised exception, caught by the `try`). A
non-chat envelope, a raised call, a non-dict envelope or `tool_input`,
or a non-string `response` value (whose `.strip()` raises inside the
`try`) all yield `none`; an absent `response` key defaults to `""`. -/
def fill_single_field (resolver : FieldQuery → Except String JValue)
    (pInt : String → Option Int) (pFloat : String → Option Rat)
    (pJson : String → Option JValue) (q : FieldQuery) : Option JValue :=
  match resolver q with
  | .error _ => none
  | .ok res =>
      match res with
      | .obj fs =>
          match pyGet fs "tool_name" with
          | some (.str tn) =>
              if tn == "chat" then
                match pyGet fs "tool_input" with
                | some (.obj ti) =>
                    (match pyGet ti "response" with
                     | none => some (parse_field_value pInt pFloat pJson "" q.fieldType)
                     | some (.str s) =>
                         some (parse_field_value pInt pFloat pJson s q.fieldType)
                     | some _ => none)
                | none => some (parse_field_value pInt pFloat pJson "" q.fieldType)
                | some _ => none
              else none
          | _ => none
      | _ => none

/-- The body of the fill loop in `fill_missing_fields`
(core/tool_prompt.py:67-74): fold over the missing fields, threading the
partially filled input (the source passes `filled_input` as the current
input of each field prompt). -/
def fill_loop (resolver : FieldQuery → Except String JValue)
    (pInt : String → Option Int) (pFloat : String → Option Rat)
    (pJson : String → Option JValue) (toolName userInput : String)
    (props : List (String × JValue)) (cfg : List (String × String)) :
    List String → List (String × JValue) → List (String × JValue)
  | [], filled => filled
  | f :: rest, filled =>
      let fieldSchema := (pyGet props f).getD (.obj [])
      let fieldType :=
        match jGet fieldSchema "type" with
        | some (.str t) => t
        | _ => "string"
      let fieldDescription :=
        match jGet fieldSchema "description" with
        | some (.str d) => d
        | _ => f ++ " field"
      let q : FieldQuery :=
        ⟨toolName, f, fieldType, fieldDescription, userInput, filled,
          ((cfg.find? (fun p => p.1 == f)).map (fun p => p.2)).getD ""⟩
      match fill_single_field resolver pInt pFloat pJson q with
      | some v => fill_loop resolver pInt pFloat pJson toolName userInput props cfg
          rest (dictSet filled f v)
      | none => fill_loop resolver pInt pFloat pJson toolName userInput props cfg
          rest filled

/-- `fill_missing_fields` (core/tool_prompt.py:43-76) on a dict input.
`promptCfg` is the `prompt_cache` loaded from the prompts directory
(tool name to per-field custom prompt text). A required field is
"missing" when absent or falsy; a field the loop cannot fill is left
untouched. -/
def fill_missing_fields (resolver : FieldQuery → Except String JValue)
    (pInt : String → Option Int) (pFloat : String → Option Rat)
    (pJson : String → Option JValue) (tools : List MTool)
    (promptCfg : List (String × List (String × String)))
    (toolName : String) (toolInput : List (String × JValue))
    (userInput : String) : List (String × JValue) :=
  match lookupTool tools toolName with
  | none => toolInput
  | some tool =>
      let schema := example_schema tool.exampleJson
      let required := requiredKeys schema
      let props := schemaProps schema
      let missing := required.filter (fun f =>
        match pyGet toolInput f with
        | none => true
        | some v => !pyTruthy v)
      if missing.isEmpty then toolInput
      else
        let cfg :=
          ((promptCfg.find? (fun p => p.1 == toolName)).map (fun p => p.2)).getD []
        fill_loop resolver pInt pFloat pJson toolName userInput props cfg
          missing toolInput

/-! ## reasoning/llm_reasoner.py — ReasoningClient -/

/-- `SYSTEM_PROMPT.substitute(...)` (reasoning/prompt_templates.py:6-42),
the template text after its `.strip()`. -/
def system_prompt (agentName toolList : String) : String :=
  "You are a helpful modular AI agent named " ++ agentName ++ ".\n\n" ++
  "Your job is to analyze the user\x27s input and decide which tool to use. " ++
  "You must respond with a single JSON object in the following format:\n\n" ++
  "\x7b\n" ++
  "    \"thoughts\": \"<your internal reasoning>\",\n" ++
  "    \"tool_name\": \"<one of the tools: " ++ toolList ++ ">\",\n" ++
  "    \"tool_input\": \x7b\n" ++
  "        // For calculator: \"expression\": \"2 + 2\" or \"abs(-5)\"\n" ++
  "        // For chat: \"response\": \"Hello! How can I assist you today?\"\n" ++
  "    \x7d\n" ++
  "\x7d\n\n" ++
  "Examples:\n" ++
  "1. Math input:\n" ++
  "\x7b\n" ++
  "    \"thoughts\": \"This is a math problem. I\x27ll use the calculator.\",\n" ++
  "    \"tool_name\": \"calculator\",\n" ++
  "    \"tool_input\": \x7b\n" ++
  "        \"expression\": \"5 * 7\"\n" ++
  "    \x7d\n" ++
  "\x7d\n\n" ++
  "2. Chat input:\n" ++
  "\x7b\n" ++
  "    \"thoughts\": \"This looks like small talk. I\x27ll respond directly.\",\n" ++
  "    \"tool_name\": \"chat\",\n" ++
  "    \"tool_input\": \x7b\n" ++
  "        \"response\": \"Hello! How can I help you today?\"\n" ++
  "    \x7d\n" ++
  "\x7d\n\n" ++
  "IMPORTANT:\n" ++
  "- Use exactly one tool per response.\n" ++
  "- Never explain outside the JSON. Your entire reply must be valid JSON."

/-- `CONTEXTUAL_PROMPT.substitute(...)`
(reasoning/prompt_templates.py:47-58), after its `.strip()`. -/
def contextual_prompt (memoryContext input toolDescriptions systemPrompt : String) :
    String :=
  "# Agent Memory:\n" ++ memoryContext ++
  "\n\n# User Input:\n" ++ input ++
  "\n\n# Tool Descriptions:\n" ++ toolDescriptions ++
  "\n\n" ++ systemPrompt

/-- `_format_tool_descriptions` (reasoning/llm_reasoner.py:146-153). -/
def format_tool_descriptions (tools : List MTool) : String :=
  String.intercalate "\n"
    (tools.foldr (fun t acc =>
      ("- " ++ t.name ++ ": " ++ t.description) ::
      (match t.exampleUsage with
       | some e => ("  Example: " ++ e) :: acc
       | none => acc)) [])

/-- `_format_memory_context` (reasoning/llm_reasoner.py:155-170).
`getRecent` is the `memory.get_recent(limit=5)` call: an `Except.error`
models any raised exception (including `AttributeError` on a memory
object without that method), swallowed by the bare `except`. -/
def format_memory_context (getRecent : Except String (List (String × String))) :
    String :=
  match getRecent with
  | .error _ => "No conversation history available."
  | .ok msgs =>
      if msgs.isEmpty then "No previous conversation history."
      else
        String.intercalate "\n"
          (msgs.map (fun m => m.1 ++ ": " ++ pyTake m.2 200))

/-- The lines the streaming callback of `_call_llm_stream`
(reasoning/llm_reasoner.py:196-225) forwards, as determined by the full
assembled text: each completed line with its newline, then the final
unterminated buffer if nonempty. -/
def transcriptLines (s : String) : List String :=
  let parts := s.splitOn "\n"
  let lastPart := parts.getLastD ""
  parts.dropLast.map (fun l => l ++ "\n") ++
    (if lastPart == "" then [] else [lastPart])

/-- The `"\n".join(transcript)` text saved under role `llm_transcript`
(reasoning/llm_reasoner.py:78). -/
def savedTranscript (s : String) : String :=
  String.intercalate "\n" (transcriptLines s)

/-- The retry loop of `_try_call_llm` (reasoning/llm_reasoner.py:227-235):
`llm` is one `_call_llm_stream` attempt (indexed by attempt number, text
or raised error). -/
def try_call_llm_go (llm : Nat → String → Except String String)
    (prompt : String) (attempt : Nat) (lastErr : String) :
    Nat → Except String String
  | 0 => .error lastErr
  | Nat.succ r =>
      match llm attempt prompt with
      | .ok t => .ok t
      | .error e => try_call_llm_go llm prompt (attempt + 1) e r

/-- `_try_call_llm` (reasoning/llm_reasoner.py:227-235): up to `retries`
full attempts; exhausting them raises `RuntimeError`. -/
def try_call_llm (llm : Nat → String → Except String String)
    (retries : Nat) (prompt : String) : Except String String :=
  match try_call_llm_go llm prompt 1 "None" retries with
  | .ok t => .ok t
  | .error le =>
      .error ("LLM failed after " ++ toString retries ++ " retries: " ++ le)

/-- `LLM_RESPONSE_SCHEMA` (reasoning/llm_reasoner.py:13-21). -/
def llmResponseSchema : JValue :=
  .obj [("type", .str "object"),
        ("required", .arr [.str "thoughts", .str "tool_name", .str "tool_input"]),
        ("properties",
          .obj [("thoughts", .obj [("type", .str "string")]),
                ("tool_name", .obj [("type", .arr [.str "string", .str "null"])]),
                ("tool_input", .obj [("type", .str "object")])])]

/-- `_validate_reasoning_result` (reasoning/llm_reasoner.py:172-186):
required keys present and `tool_name` equal to the name of a tool in the
supplied catalog (note: no special case for the "chat" sentinel — a
non-string or unregistered `tool_name` is rejected). -/
def validate_reasoning_result (result : JValue) (tools : List MTool) : Bool :=
  match result with
  | .obj fs =>
      (["thoughts", "tool_name", "tool_input"].all
        (fun k => (pyGet fs k).isSome)) &&
      (match pyGet fs "tool_name" with
       | some (.str s) => tools.any (fun t => t.name == s)
       | _ => false)
  | _ => false

/-- `_fallback_response` (reasoning/llm_reasoner.py:188-194). -/
def fallback_response (input : String) : JValue :=
  .obj [("thoughts", .str "LLM reasoning failed, falling back to chat response."),
        ("tool_name", .str "chat"),
        ("tool_input",
          .obj [("response",
            .str ("I\x27m having trouble processing that request. Could you rephrase it? You asked: "
              ++ input))])]

/-- The envelope of the outer `except` handler
(reasoning/llm_reasoner.py:138-144): `_fallback_response` with its
`thoughts` overwritten. -/
def error_fallback (input e : String) : JValue :=
  .obj [("thoughts", .str ("LLM Reasoning failed: " ++ e ++ ". Falling back to chat.")),
        ("tool_name", .str "chat"),
        ("tool_input",
          .obj [("response",
            .str ("I\x27m having trouble processing that request. Could you rephrase it? You asked: "
              ++ input))])]

/-- The corrective re-prompt (reasoning/llm_reasoner.py:103-109). -/
def fallback_prompt (input responseStr : String) : String :=
  "You\x27re an AI assistant. The user asked something, but your last response failed to format correctly.\n" ++
  "Just answer the user\x27s question clearly and helpfully without explaining what went wrong.\n\n" ++
  "User\x27s input:\n" ++ input ++ "\n\n" ++
  "Previous malformed response:\n" ++ pyStrip responseStr ++ "\n\n" ++
  "Respond directly to the user now:"

/-- Which `return` statement of `LLMReasoner.think` produced the
envelope: the tier-(a) structured success, the name-validation rejection
(`_fallback_response`), the tier-(b) corrective re-ask success, the
tier-(c) raw-text passthrough, or the outer `except` handler. -/
inductive ThinkPath where
  | structured
  | rejected
  | reask
  | passthrough
  | outerError
deriving Repr, DecidableEq

/-- The environment of one `LLMReasoner.think` call: the agent name
(`AGENT_NAME` from the configuration module, absent from the sources),
the user input, the tool catalog, the retry ceiling, and the oracles for
the streaming backend, `json.loads`, `memory.save` and
`memory.get_recent`. -/
structure ThinkEnv where
  agentName : String
  input : String
  tools : List MTool
  retries : Nat
  llm : Nat → String → Except String String
  jsonParse : String → Except String JValue
  msave : String → String → Except String Unit
  getRecent : Except String (List (String × String))

/-- The composed initial prompt of `think`
(reasoning/llm_reasoner.py:51-61). -/
def thinkPrompt (env : ThinkEnv) : String :=
  contextual_prompt
    (format_memory_context env.getRecent)
    env.input
    (format_tool_descriptions env.tools)
    (system_prompt env.agentName
      (String.intercalate ", " (env.tools.map (fun t => t.name))))

/-- The inner `except (json.JSONDecodeError, ValidationError)` handler of
`think` (reasoning/llm_reasoner.py:102-136): one corrective re-ask; its
success is tier (b), its own raised failure tier (c). -/
def thinkReask (env : ThinkEnv) (prompt responseStr errMsg : String) :
    JValue × ThinkPath × List String :=
  let fp := fallback_prompt env.input responseStr
  match try_call_llm env.llm env.retries fp with
  | .ok fb =>
      (.obj [("thoughts",
                .str ("Invalid LLM output, attempted rephrasing. Original error: "
                  ++ errMsg)),
             ("tool_name", .str "chat"),
             ("tool_input", .obj [("response", .str (pyStrip fb))])],
       ThinkPath.reask, [prompt, fp])
  | .error ie =>
      (.obj [("thoughts",
                .str ("Double LLM failure. Initial error: " ++ errMsg ++
                  ". Fallback error: " ++ ie)),
             ("tool_name", .str "chat"),
             ("tool_input",
               .obj [("response",
                 .str ("Raw LLM output from initial attempt: " ++ pyStrip responseStr))])],
       ThinkPath.passthrough, [prompt, fp])

/-- `LLMReasoner.think` (reasoning/llm_reasoner.py:35-144). Returns the
envelope, the return path taken, and the prompts passed to
`_try_call_llm` in order (so "exactly one corrective re-prompt" is the
trace having exactly the initial prompt and one fallback prompt). Event
emissions and interface printing are observational and modelled as
no-ops; a raised oracle call inside the outer `try` lands in the outer
`except`, which returns the apologetic chat envelope. -/
def think (env : ThinkEnv) : JValue × ThinkPath × List String :=
  let prompt := thinkPrompt env
  match try_call_llm env.llm env.retries prompt with
  | .error e => (error_fallback env.input e, ThinkPath.outerError, [prompt])
  | .ok responseStr =>
      match env.msave "llm_transcript" (savedTranscript responseStr) with
      | .error e => (error_fallback env.input e, ThinkPath.outerError, [prompt])
      | .ok _ =>
          match env.jsonParse (pyStrip responseStr) with
          | .ok parsed =>
              if validateBySchema parsed llmResponseSchema then
                if validate_reasoning_result parsed env.tools then
                  (parsed, ThinkPath.structured, [prompt])
                else
                  (fallback_response env.input, ThinkPath.rejected, [prompt])
              else
                thinkReask env prompt responseStr
                  "response failed schema validation"
          | .error e => thinkReask env prompt responseStr e

/-! ## core/event_bus.py — EventBus -/

/-- A subscriber callback: an identity tag plus its behaviour on a
payload (an `Except.error` models the callback raising). -/
structure EvCallback where
  id : Nat
  behavior : JValue → Except String Unit

/-- The `_subscribers` defaultdict: event name to callback list in
subscription order. -/
abbrev EventBusState := List (String × List EvCallback)

/-- `EventBus.subscribe` (core/event_bus.py:11-12): append to the
event's list (the defaultdict creates it on first use). -/
def subscribe (bus : EventBusState) (eventName : String) (cb : EvCallback) :
    EventBusState :=
  if (bus.find? (fun p => p.1 == eventName)).isSome then
    bus.map (fun p => if p.1 == eventName then (p.1, p.2 ++ [cb]) else p)
  else
    bus ++ [(eventName, [cb])]

/-- The callbacks registered for an event (empty when none). -/
def subscribersOf (bus : EventBusState) (eventName : String) :
    List EvCallback :=
  ((bus.find? (fun p => p.1 == eventName)).map (fun p => p.2)).getD []

/-- The loop body of `EventBus.emit` (core/event_bus.py:14-16): invoke in
order, recording each invocation `(callback id, payload)`; a raised
callback stops the loop and the exception propagates (`some error`). -/
def emitGo (payload : JValue) :
    List EvCallback → List (Nat × JValue) × Option String
  | [] => ([], none)
  | cb :: rest =>
      match cb.behavior payload with
      | .ok _ =>
          let t := emitGo payload rest
          ((cb.id, payload) :: t.1, t.2)
      | .error e => ([(cb.id, payload)], some e)

/-- `EventBus.emit`: returns the invocation trace and the propagated
exception, if any. -/
def emit (bus : EventBusState) (eventName : String) (payload : JValue) :
    List (Nat × JValue) × Option String :=
  emitGo payload (subscribersOf bus eventName)

/-! ## core/agent_kernel.py — the orchestration loop, one turn

`AgentKernel.run` is an unbounded `while True`; one iteration is the
function `runTurn` below. The injected `Reasoner` is abstracted by
passing the envelope its `think` returned (the claims about the loop are
all conditioned on that envelope), so the prompt-augmentation step that
only feeds the reasoner is not re-rendered here. Effects are recorded:
interface outputs, `memory.save` entries, `memory.save_context` facts,
executed tools, and emitted event names; `crashed` marks the turn ending
in the turn-boundary `except` handler (the session still continues). -/

structure MemoryEntry where
  role : String
  content : JValue
  metadata : List (String × JValue)
deriving Repr, BEq

structure TurnEffects where
  outputs : List JValue
  saves : List MemoryEntry
  ctxSaves : List (String × JValue × String)
  toolRuns : List (String × JValue)
  events : List String
  crashed : Bool
deriving Repr

/-- The per-turn collaborators: user input, registry, memory capability
flag (`hasattr(memory, 'save_context')`), debug mode, and the
FieldCompleter oracles. -/
structure KernelCtx where
  userInput : String
  tools : List MTool
  hasSaveContext : Bool
  debug : Bool
  resolver : FieldQuery → Except String JValue
  pInt : String → Option Int
  pFloat : String → Option Rat
  pJson : String → Option JValue
  promptCfg : List (String × List (String × String))

/-- `MemoryEnhancedReasoner.extract_learnable_info`
(memory/buffer_memory.py:205-224): substring heuristics over the
lowercased user input; each hit stores the raw user input under a fact
category. -/
def extract_learnable_info (userInput : String) : List (String × JValue) :=
  let u := pyLower userInput
  (if containsSub u "i like" || containsSub u "i prefer" then
    [("preference", JValue.str userInput)] else []) ++
  (if containsSub u "i am" || containsSub u "my name is" then
    [("user_fact", JValue.str userInput)] else []) ++
  (if containsSub u "remember" || containsSub u "note that" then
    [("important_note", JValue.str userInput)] else [])

/-- Python `len()` (raises on non-sized values). -/
def pyLen : JValue → Except String Nat
  | .str s => .ok s.length
  | .arr elems => .ok elems.length
  | .obj fields => .ok fields.length
  | _ => .error "TypeError: object has no len()"

/-- The turn-boundary `except` handler (core/agent_kernel.py:212-222):
render the diagnostic, output it, persist it as a system-error entry,
emit `on_error`, and resume the loop. -/
def crashEffects (outs : List JValue) (svs : List MemoryEntry)
    (ctx : List (String × JValue × String)) (runs : List (String × JValue))
    (evs : List String) (msg : String) : TurnEffects :=
  let emsg := "[ERROR] Agent crashed: " ++ msg
  ⟨outs ++ [.str emsg],
   svs ++ [⟨"system", .str emsg,
            [("type", .str "system_error"),
             ("exception_type", .str "Exception")]⟩],
   ctx, runs, evs ++ ["on_error"], true⟩

/-- The pure-chat branch (core/agent_kernel.py:91-106), reached when
`tool_name == "chat"` and the dict `tool_input` has a `response` key:
output the response, persist it with `_save_conversation_with_learning`
(core/agent_kernel.py:240-252), then continue. -/
def chatBranch (ctx : KernelCtx) (ev : List String) (sv : List MemoryEntry)
    (tif : List (String × JValue)) : TurnEffects :=
  let out := (pyGet tif "response").getD .null
  match pyLen out with
  | .error m => crashEffects [out] sv [] [] ev m
  | .ok n =>
      ⟨[out],
       sv ++ [⟨"agent", out,
               [("type", .str "chat_response"),
                ("response_length", .int (Int.ofNat n))]⟩],
       (if ctx.hasSaveContext then
          (extract_learnable_info ctx.userInput).map (fun p =>
            ("learned_" ++ p.1, p.2, "learned_facts"))
        else []),
       [],
       ev ++ [if ctx.debug then "on_tool_output" else "on_tool_used"],
       false⟩

/-- The missing-tool branch (core/agent_kernel.py:110-146): fallback chat
when `tool_input` carries a truthy `response`, otherwise a user-visible
not-found error; either way the loop continues and no tool runs. -/
def notFoundBranch (ctx : KernelCtx) (ev : List String)
    (sv : List MemoryEntry) (tn : Option JValue) (ti : JValue) :
    TurnEffects :=
  match dictGetE ti "response" with
  | .error m => crashEffects [] sv [] [] ev m
  | .ok fb =>
      if pyTruthy (fb.getD .null) then
        let out := "[Fallback Chat] Tool \x27" ++ pyStrOpt tn ++
          "\x27 not found. Chatting instead:\n" ++ pyStr (fb.getD .null)
        ⟨[.str out],
         sv ++ [⟨"agent", .str out,
                 [("type", .str "fallback"),
                  ("requested_tool", tn.getD .null),
                  ("reason", .str "tool_not_found")]⟩],
         (if ctx.hasSaveContext then
            [("failed_tool_" ++ pyStrOpt tn,
              .obj [("user_request", .str ctx.userInput),
                    ("fallback_used", .bool true)],
              "tool_usage")]
          else []),
         [],
         ev ++ [if ctx.debug then "on_tool_output" else "on_tool_used"],
         false⟩
      else
        let emsg := "[ERROR] Tool \x27" ++ pyStrOpt tn ++
          "\x27 not found or undefined."
        ⟨[.str emsg],
         sv ++ [⟨"agent", .str emsg,
                 [("type", .str "error"),
                  ("error_type", .str "tool_not_found")]⟩],
         [], [],
         ev ++ (if ctx.debug then ["on_tool_output"] else []),
         false⟩

/-- The found-tool tail (core/agent_kernel.py:148-210): field filling,
validation, execution, persistence. `filledJ` is the tool input after
`fill_missing_fields`; `fillEv` records `on_fields_auto_filled` when the
filled input differs from the original. -/
def foundBranchRun (ctx : KernelCtx) (ev : List String)
    (sv : List MemoryEntry) (s : String) (tool : MTool) (filledJ : JValue) :
    TurnEffects :=
  match validate_input ctx.tools s filledJ with
  | (valid, msg) =>
    if valid then
      match tool.run filledJ with
      | .error m => crashEffects [] sv [] [] ev m
      | .ok out =>
          ⟨[.str out],
           sv ++ [⟨"agent", .str out,
                   [("type", .str "tool_result"),
                    ("tool_name", .str s),
                    ("tool_input", filledJ),
                    ("success", .bool true)]⟩],
           (if ctx.hasSaveContext then
              [("successful_tool_" ++ s,
                .obj [("user_request", .str ctx.userInput),
                      ("tool_input", filledJ),
                      ("output_length", .int (Int.ofNat out.length))],
                "tool_usage")]
            else []),
           [(s, filledJ)],
           ev ++ [if ctx.debug then "on_tool_output" else "on_tool_used"]
              ++ ["on_output"],
           false⟩
    else
      let emsg := "[ERROR] Invalid tool input: " ++ msg
      ⟨[.str emsg],
       sv ++ [⟨"agent", .str emsg,
               [("type", .str "error"),
                ("error_type", .str "validation_failed"),
                ("tool", .str s)]⟩],
       [], [], ev, false⟩

/-- The found-tool branch entry: `tool_input.copy()` and
`fill_missing_fields`. A dict input is filled normally; a non-dict input
raises inside the copy or the fill loop unless the schema has no
required fields (the only corner where the source proceeds is a list
input with an empty required set). -/
def foundBranch (ctx : KernelCtx) (ev : List String) (sv : List MemoryEntry)
    (s : String) (tool : MTool) (ti : JValue) : TurnEffects :=
  match ti with
  | .obj fs =>
      let filled := fill_missing_fields ctx.resolver ctx.pInt ctx.pFloat
        ctx.pJson ctx.tools ctx.promptCfg s fs ctx.userInput
      let ev2 := ev ++ (if filled == fs then [] else ["on_fields_auto_filled"])
      foundBranchRun ctx ev2 sv s tool (.obj filled)
  | .arr elems =>
      if (requiredKeys (example_schema tool.exampleJson)).isEmpty then
        foundBranchRun ctx ev sv s tool (.arr elems)
      else
        crashEffects [] sv [] [] ev "TypeError: list indices must be integers"
  | _ =>
      crashEffects [] sv [] [] ev "AttributeError: object has no attribute copy"

/-- Tool resolution (core/agent_kernel.py:109): `get_tool_by_name` on
whatever value `tool_name` holds; unhashable values raise inside the
dict lookup, hashable non-names (None, numbers, booleans) simply miss. -/
def toolPath (ctx : KernelCtx) (ev : List String) (sv : List MemoryEntry)
    (tn : Option JValue) (ti : JValue) : TurnEffects :=
  match tn with
  | some (.obj _) => crashEffects [] sv [] [] ev "TypeError: unhashable type"
  | some (.arr _) => crashEffects [] sv [] [] ev "TypeError: unhashable type"
  | some (.str s) =>
      match lookupTool ctx.tools s with
      | none => notFoundBranch ctx ev sv tn ti
      | some tool => foundBranch ctx ev sv s tool ti
  | _ => notFoundBranch ctx ev sv tn ti

/-- One iteration of `AgentKernel.run` (core/agent_kernel.py:57-222),
given the envelope the injected reasoner returned for this turn. -/
def runTurn (ctx : KernelCtx) (rr : JValue) : TurnEffects :=
  let userEntry : MemoryEntry :=
    ⟨"user", .str ctx.userInput,
     [("input_length", .int (Int.ofNat ctx.userInput.length)),
      ("tool_context", .str "conversation_start")]⟩
  let ev0 := ["on_input"] ++ (if ctx.debug then [] else ["on_thought"])
  match rr with
  | .obj fs =>
      let ev1 := ev0 ++ (if ctx.debug then ["on_tool_selected"] else [])
      let tn := pyGet fs "tool_name"
      let ti := (pyGet fs "tool_input").getD (.obj [])
      let isChat := match tn with | some (.str s) => s == "chat" | _ => false
      if isChat then
        match pyIn "response" ti with
        | .error m => crashEffects [] [userEntry] [] [] ev1 m
        | .ok true =>
            match ti with
            | .obj tif => chatBranch ctx ev1 [userEntry] tif
            | _ =>
                crashEffects [] [userEntry] [] [] ev1
                  "TypeError: string indices must be integers"
        | .ok false => toolPath ctx ev1 [userEntry] tn ti
      else toolPath ctx ev1 [userEntry] tn ti
  | _ =>
      crashEffects [] [userEntry] [] [] ev0
        "AttributeError: object has no attribute get"

/-! ## General lemmas -/

theorem pyGet_cons (p : String × JValue) (fs : List (String × JValue))
    (k : String) :
    pyGet (p :: fs) k = if (p.1 == k) then some p.2 else pyGet fs k := by
  simp only [pyGet, List.find?]
  by_cases h : (p.1 == k) = true
  · rw [h]; simp
  · have h' : (p.1 == k) = false := by simpa using h
    rw [h']; simp

theorem pyGet_map_replace (g f : String) (v : JValue)
    (h : (g == f) = false) (fs : List (String × JValue)) :
    pyGet (fs.map (fun p => if p.1 == g then (g, v) else p)) f = pyGet fs f := by
  induction fs with
  | nil => rfl
  | cons p rest ih =>
      by_cases hpg : (p.1 == g) = true
      · have hp1 : p.1 = g := eq_of_beq hpg
        rw [List.map_cons, if_pos hpg, pyGet_cons, pyGet_cons]
        simp only [h, hp1, Bool.false_eq_true, if_false]
        exact ih
      · have hpg' : (p.1 == g) = false := by simpa using hpg
        rw [List.map_cons, if_neg (by simp [hpg']), pyGet_cons, pyGet_cons]
        by_cases hpf : (p.1 == f) = true
        · simp [hpf]
        · have hpf' : (p.1 == f) = false := by simpa using hpf
          simp only [hpf', Bool.false_eq_true, if_false]
          exact ih

theorem pyGet_append_single (g f : String) (v : JValue)
    (h : (g == f) = false) (fs : List (String × JValue)) :
    pyGet (fs ++ [(g, v)]) f = pyGet fs f := by
  induction fs with
  | nil =>
      simp only [List.nil_append, pyGet_cons]
      simp only [h, Bool.false_eq_true, if_false]
  | cons p rest ih =>
      rw [List.cons_append, pyGet_cons, pyGet_cons]
      by_cases hpf : (p.1 == f) = true
      · simp [hpf]
      · have hpf' : (p.1 == f) = false := by simpa using hpf
        simp only [hpf', Bool.false_eq_true, if_false]
        exact ih

theorem pyGet_dictSet_ne (fs : List (String × JValue)) (g f : String)
    (v : JValue) (h : (g == f) = false) :
    pyGet (dictSet fs g v) f = pyGet fs f := by
  unfold dictSet
  split
  · exact pyGet_map_replace g f v h fs
  · exact pyGet_append_single g f v h fs

theorem pyGet_isSome_of_mem_keys (fs : List (String × JValue)) (k : String)
    (h : k ∈ fs.map Prod.fst) : (pyGet fs k).isSome := by
  induction fs with
  | nil => simp at h
  | cons p rest ih =>
      rw [pyGet_cons]
      by_cases hpk : (p.1 == k) = true
      · rw [hpk]; simp
      · have hpk' : (p.1 == k) = false := by simpa using hpk
        simp only [hpk', Bool.false_eq_true, if_false]
        simp only [List.map_cons, List.mem_cons] at h
        rcases h with h | h
        · exact absurd (beq_iff_eq.mpr h.symm) (by simp [hpk'])
        · exact ih h

theorem pyGet_of_nodup_mem (fs : List (String × JValue)) (k : String)
    (v : JValue) (hnd : (fs.map Prod.fst).Nodup) (hmem : (k, v) ∈ fs) :
    pyGet fs k = some v := by
  induction fs with
  | nil => simp at hmem
  | cons p rest ih =>
      simp only [List.map_cons, List.nodup_cons] at hnd
      rw [pyGet_cons]
      rcases List.mem_cons.mp hmem with heq | hmem2
      · rw [← heq]
        simp
      · have hpk : (p.1 == k) = false := by
          by_contra hc
          have hp1 : p.1 = k := eq_of_beq (by simpa using hc)
          exact hnd.1 (hp1 ▸ (List.mem_map.mpr ⟨(k, v), hmem2, rfl⟩))
        simp only [hpk, Bool.false_eq_true, if_false]
        exact ih hnd.2 hmem2

/-! ## C10 — EventBus.emit -/

theorem emitGo_all_ok (payload : JValue) (l : List EvCallback)
    (h : ∀ cb ∈ l, cb.behavior payload = .ok ()) :
    emitGo payload l = (l.map (fun cb => (cb.id, payload)), none) := by
  induction l with
  | nil => rfl
  | cons cb rest ih =>
      have hcb := h cb (List.mem_cons_self _ _)
      have hrest := ih (fun c hc => h c (List.mem_cons_of_mem _ hc))
      simp only [emitGo, hcb, hrest, List.map_cons]

theorem emitGo_first_err (payload : JValue) (e : String) :
    ∀ (pre : List EvCallback) (cb : EvCallback) (post : List EvCallback),
    (∀ c ∈ pre, c.behavior payload = .ok ()) →
    cb.behavior payload = .error e →
    emitGo payload (pre ++ cb :: post) =
      ((pre ++ [cb]).map (fun c => (c.id, payload)), some e) := by
  intro pre
  induction pre with
  | nil =>
      intro cb post _ hcb
      simp only [List.nil_append, emitGo, hcb, List.map_cons, List.map_nil]
  | cons c0 rest ih =>
      intro cb post hok hcb
      have hc0 := hok c0 (List.mem_cons_self _ _)
      have hrec := ih cb post (fun c hc => hok c (List.mem_cons_of_mem _ hc)) hcb
      simp only [List.cons_append, emitGo, hc0, List.append_eq]
      rw [hrec]
      simp

theorem subscribersOf_subscribe (bus : EventBusState) (n : String)
    (cb : EvCallback) :
    subscribersOf (subscribe bus n cb) n = subscribersOf bus n ++ [cb] := by
  induction bus with
  | nil => simp [subscribe, subscribersOf]
  | cons p rest ih =>
      obtain ⟨k, l⟩ := p
      by_cases hp : (k == n) = true
      · have hk : k = n := eq_of_beq hp
        subst hk
        simp [subscribe, subscribersOf, List.find?]
      · have hp' : (k == n) = false := by simpa using hp
        have hne : ¬(k = n) := fun hh => by simp [hh] at hp'
        have hstep : subscribe ((k, l) :: rest) n cb =
            (k, l) :: subscribe rest n cb := by
          simp only [subscribe, List.find?, hp']
          by_cases hr : (rest.find? (fun q => q.1 == n)).isSome
          · simp [hr, hp', hne]
          · simp only [Bool.not_eq_true] at hr
            simp [hr, hp', hne]
        rw [hstep]
        have hskip : subscribersOf ((k, l) :: subscribe rest n cb) n =
            subscribersOf (subscribe rest n cb) n := by
          simp [subscribersOf, List.find?, hp']
        have hskip2 : subscribersOf ((k, l) :: rest) n = subscribersOf rest n := by
          simp [subscribersOf, List.find?, hp']
        rw [hskip, hskip2, ih]

/-- C10: `EventBus.emit` invokes each callback subscribed to the event
exactly once, synchronously, in subscription order, with the same
payload; with no subscribers it invokes nothing and returns normally; a
raising callback propagates its exception to the emitter and the
remaining subscribers are not invoked; and `subscribe` appends to the
event's subscriber list. -/
theorem eventbus_emit_spec (bus : EventBusState) (eventName : String)
    (payload : JValue) :
    (subscribersOf bus eventName = [] →
      emit bus eventName payload = ([], none)) ∧
    ((∀ cb ∈ subscribersOf bus eventName, cb.behavior payload = .ok ()) →
      emit bus eventName payload =
        ((subscribersOf bus eventName).map (fun cb => (cb.id, payload)), none)) ∧
    (∀ pre cb post e, subscribersOf bus eventName = pre ++ cb :: post →
      (∀ c ∈ pre, c.behavior payload = .ok ()) →
      cb.behavior payload = .error e →
      emit bus eventName payload =
        ((pre ++ [cb]).map (fun c => (c.id, payload)), some e)) ∧
    (∀ cb, subscribersOf (subscribe bus eventName cb) eventName =
      subscribersOf bus eventName ++ [cb]) := by
  refine ⟨?_, ?_, ?_, ?_⟩
  · intro h
    unfold emit
    rw [h]
    rfl
  · intro h
    unfold emit
    exact emitGo_all_ok payload _ h
  · intro pre cb post e hsubs hok hcb
    unfold emit
    rw [hsubs]
    exact emitGo_first_err payload e pre cb post hok hcb
  · intro cb
    exact subscribersOf_subscribe bus eventName cb

/-- C10 witness: a concrete bus with an ok callback followed by a raising
one — emit invokes the first two in order and propagates the error, and
`subscribe` appended in subscription order. -/
theorem eventbus_emit_spec_witness :
    emit [("e", [⟨0, fun _ => Except.ok ()⟩, ⟨1, fun _ => Except.error "boom"⟩,
                 ⟨2, fun _ => Except.ok ()⟩])] "e" JValue.null =
      ([(0, JValue.null), (1, JValue.null)], some "boom") ∧
    emit [] "e" JValue.null = ([], none) := by
  constructor
  · exact (eventbus_emit_spec _ "e" JValue.null).2.2.1
      [⟨0, fun _ => Except.ok ()⟩] ⟨1, fun _ => Except.error "boom"⟩
      [⟨2, fun _ => Except.ok ()⟩] "boom"
      (by simp [subscribersOf])
      (by intro c hc
          simp only [List.mem_singleton] at hc
          rw [hc])
      rfl
  · exact (eventbus_emit_spec [] "e" JValue.null).1 rfl

/-! ## C9 — register_tool -/

theorem lookupTool_isSome_iff (reg : List MTool) (n : String) :
    (lookupTool reg n).isSome ↔ n ∈ reg.map MTool.name := by
  unfold lookupTool
  rw [List.find?_isSome]
  constructor
  · rintro ⟨x, hx, hbeq⟩
    exact List.mem_map.mpr ⟨x, hx, eq_of_beq hbeq⟩
  · intro hmem
    rcases List.mem_map.mp hmem with ⟨x, hx, hname⟩
    exact ⟨x, hx, beq_iff_eq.mpr hname⟩

/-- C9: `register_tool` fails (raises) exactly when the descriptor's name
is already registered or its name, description or canonical example is
missing; on failure the registry is unchanged; a success appends the
descriptor, and name uniqueness is preserved. -/
theorem register_tool_spec (reg : List MTool) (t : MTool) :
    ((register_tool reg t).2.isSome ↔
      (t.name = "" ∨ t.description = "" ∨ t.exampleUsage = none ∨
        t.name ∈ reg.map MTool.name)) ∧
    ((register_tool reg t).2.isSome → (register_tool reg t).1 = reg) ∧
    ((register_tool reg t).2 = none → (register_tool reg t).1 = reg ++ [t]) ∧
    ((reg.map MTool.name).Nodup → (register_tool reg t).2 = none →
      ((register_tool reg t).1.map MTool.name).Nodup) := by
  unfold register_tool
  by_cases h1 : (t.name == "" || t.description == "" || t.exampleUsage.isNone) = true
  · have h1' : (t.name = "" ∨ t.description = "") ∨ t.exampleUsage = none := by
      simpa [Bool.or_eq_true, beq_iff_eq, Option.isNone_iff_eq_none] using h1
    rw [if_pos h1]
    refine ⟨?_, fun _ => rfl, ?_, ?_⟩
    · simp only [Option.isSome_some, true_iff]
      rcases h1' with (h | h) | h
      · exact Or.inl h
      · exact Or.inr (Or.inl h)
      · exact Or.inr (Or.inr (Or.inl h))
    · intro hc; simp at hc
    · intro _ hc; simp at hc
  · rw [if_neg h1]
    by_cases h2 : (lookupTool reg t.name).isSome = true
    · rw [if_pos h2]
      refine ⟨?_, fun _ => rfl, ?_, ?_⟩
      · simp only [Option.isSome_some, true_iff]
        exact Or.inr (Or.inr (Or.inr ((lookupTool_isSome_iff reg t.name).mp h2)))
      · intro hc; simp at hc
      · intro _ hc; simp at hc
    · rw [if_neg h2]
      have hnotmem : t.name ∉ reg.map MTool.name := fun hm =>
        h2 ((lookupTool_isSome_iff reg t.name).mpr hm)
      refine ⟨?_, ?_, fun _ => rfl, ?_⟩
      · simp only [Option.isSome_none, Bool.false_eq_true, false_iff]
        intro hd
        rcases hd with h | h | h | h
        · exact h1 (by simp [h])
        · exact h1 (by simp [h])
        · exact h1 (by simp [h, Option.isNone_iff_eq_none])
        · exact hnotmem h
      · intro hc; simp at hc
      · intro hnd _
        rw [List.map_append]
        simp only [List.map_cons, List.map_nil]
        refine List.Nodup.append hnd (List.nodup_singleton _) ?_
        intro a ha hb
        rw [List.mem_singleton] at hb
        subst hb
        exact hnotmem ha

/-- C9 witness: registering a fresh descriptor succeeds and keeps names
unique; registering the same name again fails. -/
theorem register_tool_spec_witness :
    (register_tool [] ⟨"chat", "d", some "e", none, fun _ => Except.ok ""⟩).1 =
      [⟨"chat", "d", some "e", none, fun _ => Except.ok ""⟩] ∧
    (((register_tool [] ⟨"chat", "d", some "e", none, fun _ => Except.ok ""⟩).1).map
      MTool.name).Nodup ∧
    (register_tool [⟨"chat", "d", some "e", none, fun _ => Except.ok ""⟩]
      ⟨"chat", "d", some "e", none, fun _ => Except.ok ""⟩).2.isSome := by
  refine ⟨?_, ?_, ?_⟩
  · exact (register_tool_spec [] _).2.2.1 rfl
  · exact (register_tool_spec [] _).2.2.2 (by simp) rfl
  · exact (register_tool_spec [_] _).1.mpr (Or.inr (Or.inr (Or.inr (by simp))))

/-! ## C8 — _parse_field_value -/

/-- C8: the coercion of a textual answer per declared type: booleans via
the permissive truthy-token set (case-insensitive, on the trimmed
answer), integer/number via the numeric parsers, array/object via the
structured-data parser, and any parse failure falls back to the raw
trimmed string instead of raising. -/
theorem parse_field_value_spec (pInt : String → Option Int)
    (pFloat : String → Option Rat) (pJson : String → Option JValue)
    (response : String) :
    (parse_field_value pInt pFloat pJson response "boolean" =
      .bool (["true", "yes", "1", "on"].contains (pyLower (pyStrip response)))) ∧
    ((parse_field_value pInt pFloat pJson response "boolean" = .bool true) ↔
      pyLower (pyStrip response) ∈ ["true", "yes", "1", "on"]) ∧
    (∀ n, pInt (pyStrip response) = some n →
      parse_field_value pInt pFloat pJson response "integer" = .int n) ∧
    (pInt (pyStrip response) = none →
      parse_field_value pInt pFloat pJson response "integer" = .str (pyStrip response)) ∧
    (∀ q, pFloat (pyStrip response) = some q →
      parse_field_value pInt pFloat pJson response "number" = .num q) ∧
    (pFloat (pyStrip response) = none →
      parse_field_value pInt pFloat pJson response "number" = .str (pyStrip response)) ∧
    (∀ v, pJson (pyStrip response) = some v →
      parse_field_value pInt pFloat pJson response "array" = v ∧
      parse_field_value pInt pFloat pJson response "object" = v) ∧
    (pJson (pyStrip response) = none →
      parse_field_value pInt pFloat pJson response "array" = .str (pyStrip response) ∧
      parse_field_value pInt pFloat pJson response "object" = .str (pyStrip response)) := by
  have hint : parse_field_value pInt pFloat pJson response "integer" =
      (match pInt (pyStrip response) with
       | some n => JValue.int n
       | none => .str (pyStrip response)) := rfl
  have hnum : parse_field_value pInt pFloat pJson response "number" =
      (match pFloat (pyStrip response) with
       | some q => JValue.num q
       | none => .str (pyStrip response)) := rfl
  have harr : parse_field_value pInt pFloat pJson response "array" =
      (match pJson (pyStrip response) with
       | some v => v
       | none => .str (pyStrip response)) := rfl
  have hobj : parse_field_value pInt pFloat pJson response "object" =
      (match pJson (pyStrip response) with
       | some v => v
       | none => .str (pyStrip response)) := rfl
  refine ⟨rfl, ?_, ?_, ?_, ?_, ?_, ?_, ?_⟩
  · rw [show parse_field_value pInt pFloat pJson response "boolean" =
      .bool (["true", "yes", "1", "on"].contains (pyLower (pyStrip response))) from rfl]
    constructor
    · intro h
      have hb := JValue.bool.inj h
      simpa using hb
    · intro h
      have hb : (["true", "yes", "1", "on"].contains (pyLower (pyStrip response))) = true := by
        simpa using h
      rw [hb]
  · intro n h; rw [hint, h]
  · intro h; rw [hint, h]
  · intro q h; rw [hnum, h]
  · intro h; rw [hnum, h]
  · intro v h; rw [harr, hobj, h]; exact ⟨rfl, rfl⟩
  · intro h; rw [harr, hobj, h]; exact ⟨rfl, rfl⟩

/-- C8 witness: concrete coercions — a truthy boolean token, a parsed
integer, and a failed numeric parse falling back to the raw string. -/
theorem parse_field_value_spec_witness :
    parse_field_value (fun s => if s = "7" then some 7 else none)
      (fun _ => none) (fun _ => none) " YES " "boolean" = .bool true ∧
    parse_field_value (fun s => if s = "7" then some 7 else none)
      (fun _ => none) (fun _ => none) "7" "integer" = .int 7 ∧
    parse_field_value (fun s => if s = "7" then some 7 else none)
      (fun _ => none) (fun _ => none) "x" "number" = .str "x" := by
  refine ⟨?_, ?_, ?_⟩
  · exact (parse_field_value_spec (fun s => if s = "7" then some 7 else none)
      (fun _ => none) (fun _ => none) " YES ").2.1.mpr (by decide)
  · exact (parse_field_value_spec (fun s => if s = "7" then some 7 else none)
      (fun _ => none) (fun _ => none) "7").2.2.1 7 (by decide)
  · exact (parse_field_value_spec (fun s => if s = "7" then some 7 else none)
      (fun _ => none) (fun _ => none) "x").2.2.2.2.2.1 rfl

/-! ## C6 — schema self-consistency of the canonical example -/

theorem typeMatches_infer_type (v : JValue) (h : v ≠ JValue.null) :
    typeMatches (infer_type v) v = true := by
  cases v with
  | null => exact absurd rfl h
  | bool b => rfl
  | int n => rfl
  | num q => rfl
  | str s => rfl
  | arr elems => rfl
  | obj fields => rfl

theorem filterMap_str_keys (fs : List (String × JValue)) :
    (fs.map (fun p => JValue.str p.1)).filterMap
      (fun v => match v with | .str s => some s | _ => none) =
    fs.map Prod.fst := by
  induction fs with
  | nil => rfl
  | cons p rest ih => simp [List.filterMap_cons, ih]

theorem requiredKeys_example_schema (fs : List (String × JValue)) :
    requiredKeys (example_schema (some (.obj fs))) = fs.map Prod.fst := by
  rw [show requiredKeys (example_schema (some (.obj fs))) =
    (fs.map (fun p => JValue.str p.1)).filterMap
      (fun v => match v with | .str s => some s | _ => none) from rfl]
  exact filterMap_str_keys fs

theorem example_self_valid (fs : List (String × JValue))
    (hnd : (fs.map Prod.fst).Nodup)
    (hnonull : ∀ p ∈ fs, p.2 ≠ JValue.null) :
    validateBySchema (.obj fs) (example_schema (some (.obj fs))) = true := by
  unfold validateBySchema
  rw [Bool.and_eq_true]
  constructor
  · rfl
  · rw [show (match JValue.obj fs with
      | .obj _ =>
          (requiredKeys (example_schema (some (.obj fs)))).all
            (fun k => (jGet (.obj fs) k).isSome) &&
          (schemaProps (example_schema (some (.obj fs)))).all (fun p =>
            match jGet (.obj fs) p.1 with
            | none => true
            | some v => typeOk p.2 v)
      | _ => true) =
      ((requiredKeys (example_schema (some (.obj fs)))).all
            (fun k => (jGet (.obj fs) k).isSome) &&
          (schemaProps (example_schema (some (.obj fs)))).all (fun p =>
            match jGet (.obj fs) p.1 with
            | none => true
            | some v => typeOk p.2 v)) from rfl]
    rw [Bool.and_eq_true]
    constructor
    · rw [requiredKeys_example_schema, List.all_eq_true]
      intro k hk
      exact pyGet_isSome_of_mem_keys fs k hk
    · rw [show schemaProps (example_schema (some (.obj fs))) =
        fs.map (fun p => (p.1, JValue.obj [("type", .str (infer_type p.2))]))
        from rfl]
      rw [List.all_eq_true]
      intro q hq
      rcases List.mem_map.mp hq with ⟨p, hp, rfl⟩
      have hget : jGet (.obj fs) p.1 = some p.2 :=
        pyGet_of_nodup_mem fs p.1 p.2 hnd hp
      rw [hget]
      show typeMatches (infer_type p.2) p.2 = true
      exact typeMatches_infer_type p.2 (hnonull p hp)

/-- C6 (amended): for every registered tool whose parsed canonical example
is a JSON object with no null values (and, as for any Python dict,
duplicate-free keys), validating the example against the schema inferred
from it succeeds, and the inferred schema's required field set equals the
example's key set. -/
theorem tool_example_self_validation (tools : List MTool) (tool : MTool)
    (fs : List (String × JValue))
    (hlook : lookupTool tools tool.name = some tool)
    (hex : tool.exampleJson = some (.obj fs))
    (hnd : (fs.map Prod.fst).Nodup)
    (hnonull : ∀ p ∈ fs, p.2 ≠ JValue.null) :
    (validate_input tools tool.name (.obj fs)).1 = true ∧
    requiredKeys (example_schema tool.exampleJson) = fs.map Prod.fst := by
  constructor
  · have hprops : (jGet (example_schema (some (.obj fs))) "properties").isNone
        = false := rfl
    simp only [validate_input, hlook, hex, hprops, Bool.false_eq_true, if_false,
      example_self_valid fs hnd hnonull, if_true]
  · rw [hex]
    exact requiredKeys_example_schema fs

/-- C6 counterexample: the claim as stated fails — a registerable tool
whose canonical example carries a null value gets the inferred type
"string" for that field, and validating its own example then fails. -/
theorem tool_example_self_validation_counterexample :
    (register_tool []
      ⟨"nulltool", "d", some "\x7b\"x\": null\x7d",
        some (.obj [("x", JValue.null)]), fun _ => Except.ok ""⟩).2 = none ∧
    (validate_input
      [⟨"nulltool", "d", some "\x7b\"x\": null\x7d",
        some (.obj [("x", JValue.null)]), fun _ => Except.ok ""⟩]
      "nulltool" (.obj [("x", JValue.null)])).1 = false := by
  exact ⟨rfl, rfl⟩

/-- C6 witness: a calculator-like tool validates its own example. -/
theorem tool_example_self_validation_witness :
    (validate_input
      [⟨"advanced_calculator", "d", some "e",
        some (.obj [("expression", .str "sqrt(16) + 2**3 - 5/2")]),
        fun _ => Except.ok ""⟩]
      "advanced_calculator"
      (.obj [("expression", .str "sqrt(16) + 2**3 - 5/2")])).1 = true ∧
    requiredKeys (example_schema
      (some (.obj [("expression", JValue.str "sqrt(16) + 2**3 - 5/2")]))) =
      ["expression"] := by
  exact tool_example_self_validation
    [⟨"advanced_calculator", "d", some "e",
      some (.obj [("expression", .str "sqrt(16) + 2**3 - 5/2")]),
      fun _ => Except.ok ""⟩]
    ⟨"advanced_calculator", "d", some "e",
      some (.obj [("expression", .str "sqrt(16) + 2**3 - 5/2")]),
      fun _ => Except.ok ""⟩
    [("expression", .str "sqrt(16) + 2**3 - 5/2")]
    rfl rfl (by simp)
    (by intro p hp
        simp only [List.mem_singleton] at hp
        subst hp
        intro hc
        exact JValue.noConfusion hc)

/-! ## C3 — unresolved required fields stay absent -/

theorem fill_loop_preserves_absent (resolver : FieldQuery → Except String JValue)
    (pInt : String → Option Int) (pFloat : String → Option Rat)
    (pJson : String → Option JValue) (toolName userInput : String)
    (props : List (String × JValue)) (cfg : List (String × String))
    (f : String)
    (hunres : ∀ q : FieldQuery, q.fieldName = f →
      fill_single_field resolver pInt pFloat pJson q = none) :
    ∀ (fields : List String) (filled : List (String × JValue)),
      pyGet filled f = none →
      pyGet (fill_loop resolver pInt pFloat pJson toolName userInput props cfg
        fields filled) f = none := by
  intro fields
  induction fields with
  | nil => intro filled h; exact h
  | cons g rest ih =>
      intro filled h
      simp only [fill_loop]
      split
      · rename_i v heq
        by_cases hgf : g = f
        · exfalso
          subst hgf
          rw [hunres _ rfl] at heq
          exact Option.noConfusion heq
        · refine ih (dictSet filled g v) ?_
          rw [pyGet_dictSet_ne filled g f v (beq_eq_false_iff_ne.mpr hgf)]
          exact h
      · exact ih filled h

/-- C3 (amended): a required field that is absent from the partial input
and that the single-field completion cannot resolve (the completion call
raises or returns a non-chat envelope, yielding no value) is left absent
by `fill_missing_fields`, so the subsequent validation fails and reports
that field among the missing required fields. A field that is present
with a falsy value, by contrast, keeps its original value (see the
counterexample). -/
theorem fill_unresolved_absent (resolver : FieldQuery → Except String JValue)
    (pInt : String → Option Int) (pFloat : String → Option Rat)
    (pJson : String → Option JValue) (tools : List MTool)
    (promptCfg : List (String × List (String × String)))
    (toolName : String) (toolInput : List (String × JValue))
    (userInput : String) (tool : MTool) (fs : List (String × JValue))
    (f : String)
    (hlook : lookupTool tools toolName = some tool)
    (hex : tool.exampleJson = some (.obj fs))
    (hreq : f ∈ fs.map Prod.fst)
    (habs : pyGet toolInput f = none)
    (hunres : ∀ q : FieldQuery, q.fieldName = f →
      fill_single_field resolver pInt pFloat pJson q = none) :
    pyGet (fill_missing_fields resolver pInt pFloat pJson tools promptCfg
      toolName toolInput userInput) f = none ∧
    (validate_input tools toolName (.obj (fill_missing_fields resolver pInt
      pFloat pJson tools promptCfg toolName toolInput userInput))).1 = false ∧
    f ∈ missingRequired
      (.obj (fill_missing_fields resolver pInt pFloat pJson tools promptCfg
        toolName toolInput userInput))
      (example_schema tool.exampleJson) := by
  have habs' : pyGet (fill_missing_fields resolver pInt pFloat pJson tools
      promptCfg toolName toolInput userInput) f = none := by
    simp only [fill_missing_fields, hlook]
    split
    · exact habs
    · exact fill_loop_preserves_absent resolver pInt pFloat pJson toolName
        userInput _ _ f hunres _ toolInput habs
  have hreqkeys : f ∈ requiredKeys (example_schema tool.exampleJson) := by
    rw [hex, requiredKeys_example_schema]
    exact hreq
  refine ⟨habs', ?_, ?_⟩
  · have hprops : (jGet (example_schema (some (.obj fs))) "properties").isNone
        = false := rfl
    have hvb : validateBySchema
        (.obj (fill_missing_fields resolver pInt pFloat pJson tools promptCfg
          toolName toolInput userInput))
        (example_schema (some (.obj fs))) = false := by
      have hall : (requiredKeys (example_schema (some (.obj fs)))).all
          (fun k => (jGet (.obj (fill_missing_fields resolver pInt pFloat
            pJson tools promptCfg toolName toolInput userInput)) k).isSome)
          = false := by
        rw [Bool.eq_false_iff]
        intro hc
        have hf := List.all_eq_true.mp hc f (by rw [← hex]; exact hreqkeys)
        rw [show jGet (JValue.obj (fill_missing_fields resolver pInt pFloat
          pJson tools promptCfg toolName toolInput userInput)) f =
          pyGet (fill_missing_fields resolver pInt pFloat pJson tools
            promptCfg toolName toolInput userInput) f from rfl, habs'] at hf
        exact Option.noConfusion ((Option.isSome_iff_exists.mp hf).choose_spec)
      unfold validateBySchema
      rw [hall]
      simp
    simp only [validate_input, hlook, hex, hprops, Bool.false_eq_true,
      if_false, hvb]
  · rw [hex]
    unfold missingRequired
    rw [List.mem_filter]
    constructor
    · rw [requiredKeys_example_schema]
      exact hreq
    · rw [show jGet (JValue.obj (fill_missing_fields resolver pInt pFloat
        pJson tools promptCfg toolName toolInput userInput)) f =
        pyGet (fill_missing_fields resolver pInt pFloat pJson tools promptCfg
          toolName toolInput userInput) f from rfl, habs']
      rfl

/-- C3 counterexample: the claim as stated fails for a required field that
is present but falsy — with field "x" present as the empty string and an
unresolvable completion, the filled input keeps "x" mapped to ""
(it is not absent), and validation of the filled input succeeds instead
of reporting "x" missing. -/
theorem fill_unresolved_absent_counterexample :
    fill_missing_fields (fun _ => Except.error "backend down")
      (fun _ => none) (fun _ => none) (fun _ => none)
      [⟨"stub", "d", some "e", some (.obj [("x", .str "ex")]),
        fun _ => Except.ok ""⟩]
      [] "stub" [("x", .str "")] "u" = [("x", JValue.str "")] ∧
    (validate_input
      [⟨"stub", "d", some "e", some (.obj [("x", .str "ex")]),
        fun _ => Except.ok ""⟩]
      "stub" (.obj [("x", JValue.str "")])).1 = true := by
  exact ⟨rfl, rfl⟩

/-- C3 witness: a required field absent from the input and unresolvable
stays absent and is reported missing by validation. -/
theorem fill_unresolved_absent_witness :
    pyGet (fill_missing_fields (fun _ => Except.error "backend down")
      (fun _ => none) (fun _ => none) (fun _ => none)
      [⟨"t2", "d", some "e", some (.obj [("y", .str "ex")]),
        fun _ => Except.ok ""⟩]
      [] "t2" [] "u") "y" = none ∧
    (validate_input [⟨"t2", "d", some "e", some (.obj [("y", .str "ex")]),
        fun _ => Except.ok ""⟩]
      "t2" (.obj (fill_missing_fields (fun _ => Except.error "backend down")
        (fun _ => none) (fun _ => none) (fun _ => none)
        [⟨"t2", "d", some "e", some (.obj [("y", .str "ex")]),
          fun _ => Except.ok ""⟩]
        [] "t2" [] "u"))).1 = false ∧
    "y" ∈ missingRequired
      (.obj (fill_missing_fields (fun _ => Except.error "backend down")
        (fun _ => none) (fun _ => none) (fun _ => none)
        [⟨"t2", "d", some "e", some (.obj [("y", .str "ex")]),
          fun _ => Except.ok ""⟩]
        [] "t2" [] "u"))
      (example_schema (some (.obj [("y", JValue.str "ex")]))) := by
  exact fill_unresolved_absent (fun _ => Except.error "backend down")
    (fun _ => none) (fun _ => none) (fun _ => none)
    [⟨"t2", "d", some "e", some (.obj [("y", .str "ex")]),
      fun _ => Except.ok ""⟩]
    [] "t2" [] "u"
    ⟨"t2", "d", some "e", some (.obj [("y", .str "ex")]),
      fun _ => Except.ok ""⟩
    [("y", .str "ex")] "y"
    rfl rfl (by simp) rfl (fun _ _ => rfl)

/-! ## C5 — the pure-chat turn -/

/-- C5: for a turn whose envelope is `{tool_name: "chat", tool_input:
{response: R}}`, the loop outputs exactly R, appends exactly one memory
entry with role "agent" and content R, executes no tool, and finishes
the turn normally (proceeding to the next one). -/
theorem chat_turn_spec (userInput R : String) (tools : List MTool)
    (hasCtx debug : Bool) (resolver : FieldQuery → Except String JValue)
    (pInt : String → Option Int) (pFloat : String → Option Rat)
    (pJson : String → Option JValue)
    (promptCfg : List (String × List (String × String))) :
    (runTurn ⟨userInput, tools, hasCtx, debug, resolver, pInt, pFloat, pJson,
        promptCfg⟩
      (.obj [("tool_name", .str "chat"),
             ("tool_input", .obj [("response", .str R)])])).outputs =
      [.str R] ∧
    ((runTurn ⟨userInput, tools, hasCtx, debug, resolver, pInt, pFloat, pJson,
        promptCfg⟩
      (.obj [("tool_name", .str "chat"),
             ("tool_input", .obj [("response", .str R)])])).saves.filter
        (fun en => en.role == "agent")).map MemoryEntry.content = [.str R] ∧
    ((runTurn ⟨userInput, tools, hasCtx, debug, resolver, pInt, pFloat, pJson,
        promptCfg⟩
      (.obj [("tool_name", .str "chat"),
             ("tool_input", .obj [("response", .str R)])])).saves.filter
        (fun en => en.role == "agent")).length = 1 ∧
    (runTurn ⟨userInput, tools, hasCtx, debug, resolver, pInt, pFloat, pJson,
        promptCfg⟩
      (.obj [("tool_name", .str "chat"),
             ("tool_input", .obj [("response", .str R)])])).toolRuns = [] ∧
    (runTurn ⟨userInput, tools, hasCtx, debug, resolver, pInt, pFloat, pJson,
        promptCfg⟩
      (.obj [("tool_name", .str "chat"),
             ("tool_input", .obj [("response", .str R)])])).crashed = false := by
  exact ⟨rfl, rfl, rfl, rfl, rfl⟩

/-! ## C7 — unregistered tool without fallback response -/

theorem toolPath_notfound (ctx : KernelCtx) (ev : List String)
    (sv : List MemoryEntry) (T : String) (ti : List (String × JValue))
    (hlook : lookupTool ctx.tools T = none)
    (hres : pyGet ti "response" = none) :
    toolPath ctx ev sv (some (.str T)) (.obj ti) =
      ⟨[.str ("[ERROR] Tool \x27" ++ T ++ "\x27 not found or undefined.")],
       sv ++ [⟨"agent",
               .str ("[ERROR] Tool \x27" ++ T ++ "\x27 not found or undefined."),
               [("type", .str "error"),
                ("error_type", .str "tool_not_found")]⟩],
       [], [],
       ev ++ (if ctx.debug then ["on_tool_output"] else []),
       false⟩ := by
  simp only [toolPath, hlook, notFoundBranch, dictGetE, hres, Option.getD,
    pyTruthy, Bool.false_eq_true, if_false]
  rfl

/-- C7: for a turn whose envelope names a tool absent from the registry
with no fallback response value in `tool_input`, the loop outputs the
user-visible not-found error, persists it as the only agent entry (of
error type), persists no tool-result entry, executes no tool, and the
turn finishes normally so the session continues. -/
theorem toolnotfound_turn_spec (userInput T : String) (th : JValue)
    (ti : List (String × JValue)) (tools : List MTool)
    (hasCtx debug : Bool) (resolver : FieldQuery → Except String JValue)
    (pInt : String → Option Int) (pFloat : String → Option Rat)
    (pJson : String → Option JValue)
    (promptCfg : List (String × List (String × String)))
    (hlook : lookupTool tools T = none)
    (hres : pyGet ti "response" = none) :
    (runTurn ⟨userInput, tools, hasCtx, debug, resolver, pInt, pFloat, pJson,
        promptCfg⟩
      (.obj [("thoughts", th), ("tool_name", .str T),
             ("tool_input", .obj ti)])).outputs =
      [.str ("[ERROR] Tool \x27" ++ T ++ "\x27 not found or undefined.")] ∧
    ((runTurn ⟨userInput, tools, hasCtx, debug, resolver, pInt, pFloat, pJson,
        promptCfg⟩
      (.obj [("thoughts", th), ("tool_name", .str T),
             ("tool_input", .obj ti)])).saves.filter
        (fun en => en.role == "agent")) =
      [⟨"agent", .str ("[ERROR] Tool \x27" ++ T ++ "\x27 not found or undefined."),
        [("type", .str "error"), ("error_type", .str "tool_not_found")]⟩] ∧
    (∀ en ∈ (runTurn ⟨userInput, tools, hasCtx, debug, resolver, pInt, pFloat,
        pJson, promptCfg⟩
      (.obj [("thoughts", th), ("tool_name", .str T),
             ("tool_input", .obj ti)])).saves,
      pyGet en.metadata "type" ≠ some (.str "tool_result")) ∧
    (runTurn ⟨userInput, tools, hasCtx, debug, resolver, pInt, pFloat, pJson,
        promptCfg⟩
      (.obj [("thoughts", th), ("tool_name", .str T),
             ("tool_input", .obj ti)])).toolRuns = [] ∧
    (runTurn ⟨userInput, tools, hasCtx, debug, resolver, pInt, pFloat, pJson,
        promptCfg⟩
      (.obj [("thoughts", th), ("tool_name", .str T),
             ("tool_input", .obj ti)])).crashed = false := by
  have hrun : runTurn ⟨userInput, tools, hasCtx, debug, resolver, pInt,
      pFloat, pJson, promptCfg⟩
      (.obj [("thoughts", th), ("tool_name", .str T),
             ("tool_input", .obj ti)]) =
      toolPath ⟨userInput, tools, hasCtx, debug, resolver, pInt, pFloat,
        pJson, promptCfg⟩
        ((["on_input"] ++ (if debug then [] else ["on_thought"])) ++
          (if debug then ["on_tool_selected"] else []))
        [⟨"user", .str userInput,
          [("input_length", .int (Int.ofNat userInput.length)),
           ("tool_context", .str "conversation_start")]⟩]
        (some (.str T)) (.obj ti) := by
    simp only [runTurn]
    rw [show pyGet [("thoughts", th), ("tool_name", JValue.str T),
      ("tool_input", JValue.obj ti)] "tool_name" = some (.str T) from rfl]
    rw [show pyGet [("thoughts", th), ("tool_name", JValue.str T),
      ("tool_input", JValue.obj ti)] "tool_input" = some (.obj ti) from rfl]
    cases hTc : (T == "chat") with
    | false =>
        simp only [hTc, Bool.false_eq_true, if_false]
        rfl
    | true =>
        have hT : T = "chat" := eq_of_beq hTc
        subst hT
        simp only [Option.getD_some, beq_self_eq_true, if_true]
        rw [show pyIn "response" (JValue.obj ti) =
          Except.ok (pyGet ti "response").isSome from rfl, hres]
        rfl
  rw [hrun, toolPath_notfound _ _ _ T ti hlook hres]
  refine ⟨rfl, rfl, ?_, rfl, rfl⟩
  intro en hen
  simp only [List.append_eq, List.cons_append, List.nil_append,
    List.mem_cons, List.not_mem_nil, or_false] at hen
  rcases hen with rfl | rfl
  · intro hc
    exact Option.noConfusion hc
  · intro hc
    exact absurd (JValue.str.inj (Option.some.inj hc)) (by decide)

/-- C7 witness: a concrete turn asking for the unregistered tool
"teleport" with an empty tool_input. -/
theorem toolnotfound_turn_spec_witness :
    (runTurn ⟨"hi", [], false, false, fun _ => Except.error "x",
        fun _ => none, fun _ => none, fun _ => none, []⟩
      (.obj [("thoughts", .str "t"), ("tool_name", .str "teleport"),
             ("tool_input", .obj [])])).outputs =
      [.str ("[ERROR] Tool \x27" ++ "teleport" ++ "\x27 not found or undefined.")] ∧
    ((runTurn ⟨"hi", [], false, false, fun _ => Except.error "x",
        fun _ => none, fun _ => none, fun _ => none, []⟩
      (.obj [("thoughts", .str "t"), ("tool_name", .str "teleport"),
             ("tool_input", .obj [])])).saves.filter
        (fun en => en.role == "agent")) =
      [⟨"agent",
        .str ("[ERROR] Tool \x27" ++ "teleport" ++ "\x27 not found or undefined."),
        [("type", .str "error"), ("error_type", .str "tool_not_found")]⟩] ∧
    (∀ en ∈ (runTurn ⟨"hi", [], false, false, fun _ => Except.error "x",
        fun _ => none, fun _ => none, fun _ => none, []⟩
      (.obj [("thoughts", .str "t"), ("tool_name", .str "teleport"),
             ("tool_input", .obj [])])).saves,
      pyGet en.metadata "type" ≠ some (.str "tool_result")) ∧
    (runTurn ⟨"hi", [], false, false, fun _ => Except.error "x",
        fun _ => none, fun _ => none, fun _ => none, []⟩
      (.obj [("thoughts", .str "t"), ("tool_name", .str "teleport"),
             ("tool_input", .obj [])])).toolRuns = [] ∧
    (runTurn ⟨"hi", [], false, false, fun _ => Except.error "x",
        fun _ => none, fun _ => none, fun _ => none, []⟩
      (.obj [("thoughts", .str "t"), ("tool_name", .str "teleport"),
             ("tool_input", .obj [])])).crashed = false := by
  exact toolnotfound_turn_spec "hi" "teleport" (.str "t") [] [] false false
    (fun _ => Except.error "x") (fun _ => none) (fun _ => none)
    (fun _ => none) [] rfl rfl

/-! ## C1, C4 — every think envelope names "chat" or a catalog tool, and
every failure path yields a chat envelope with a response -/

theorem validate_reasoning_result_toolname (parsed : JValue)
    (tools : List MTool) (h : validate_reasoning_result parsed tools = true) :
    ∃ s, jGet parsed "tool_name" = some (.str s) ∧ s ∈ tools.map MTool.name := by
  cases parsed with
  | obj fs =>
      unfold validate_reasoning_result at h
      rw [Bool.and_eq_true] at h
      rcases h with ⟨_, h2⟩
      cases hpg : pyGet fs "tool_name" with
      | none => rw [hpg] at h2; exact Bool.noConfusion h2
      | some v =>
          cases v with
          | str s =>
              rw [hpg] at h2
              rcases List.any_eq_true.mp h2 with ⟨t, ht, hbeq⟩
              refine ⟨s, ?_, List.mem_map.mpr ⟨t, ht, eq_of_beq hbeq⟩⟩
              rw [show jGet (JValue.obj fs) "tool_name" =
                pyGet fs "tool_name" from rfl, hpg]
          | null => rw [hpg] at h2; exact Bool.noConfusion h2
          | bool b => rw [hpg] at h2; exact Bool.noConfusion h2
          | int n => rw [hpg] at h2; exact Bool.noConfusion h2
          | num q => rw [hpg] at h2; exact Bool.noConfusion h2
          | arr elems => rw [hpg] at h2; exact Bool.noConfusion h2
          | obj fields => rw [hpg] at h2; exact Bool.noConfusion h2
  | null => exact Bool.noConfusion h
  | bool b => exact Bool.noConfusion h
  | int n => exact Bool.noConfusion h
  | num q => exact Bool.noConfusion h
  | str s => exact Bool.noConfusion h
  | arr elems => exact Bool.noConfusion h

/-- C1: every envelope `think` returns carries a `tool_name` that is
either the reserved "chat" sentinel or the name of a tool in the
supplied catalog — any other name is rejected before execution and
replaced by the fallback chat envelope. -/
theorem think_toolname_valid (env : ThinkEnv) :
    ∃ s, jGet (think env).1 "tool_name" = some (.str s) ∧
      (s = "chat" ∨ s ∈ env.tools.map MTool.name) := by
  simp only [think]
  split
  · exact ⟨"chat", rfl, Or.inl rfl⟩
  · split
    · exact ⟨"chat", rfl, Or.inl rfl⟩
    · split
      · split
        · split
          · rename_i parsed heqp hschema hvalid
            rcases validate_reasoning_result_toolname parsed env.tools hvalid
              with ⟨s, hs, hmem⟩
            exact ⟨s, hs, Or.inr hmem⟩
          · exact ⟨"chat", rfl, Or.inl rfl⟩
        · simp only [thinkReask]
          split
          · exact ⟨"chat", rfl, Or.inl rfl⟩
          · exact ⟨"chat", rfl, Or.inl rfl⟩
      · simp only [thinkReask]
        split
        · exact ⟨"chat", rfl, Or.inl rfl⟩
        · exact ⟨"chat", rfl, Or.inl rfl⟩

/-- C4: `think` is a total function of its oracles (it raises nothing to
the caller), and on every path other than the validated structured
success — backend exhausted past the retry ceiling, transcript-save
failure, parse or schema failure, name-validation rejection — the
returned envelope is a chat envelope with a `response` in `tool_input`. -/
theorem think_failure_chat (env : ThinkEnv) :
    ((think env).2.1 = ThinkPath.structured ∧
      validate_reasoning_result (think env).1 env.tools = true) ∨
    (jGet (think env).1 "tool_name" = some (.str "chat") ∧
      ∃ ti, jGet (think env).1 "tool_input" = some (.obj ti) ∧
        (pyGet ti "response").isSome = true) := by
  simp only [think]
  split
  · exact Or.inr ⟨rfl, _, rfl, rfl⟩
  · split
    · exact Or.inr ⟨rfl, _, rfl, rfl⟩
    · split
      · split
        · split
          · rename_i parsed heqp hschema hvalid
            exact Or.inl ⟨rfl, hvalid⟩
          · exact Or.inr ⟨rfl, _, rfl, rfl⟩
        · simp only [thinkReask]
          split
          · exact Or.inr ⟨rfl, _, rfl, rfl⟩
          · exact Or.inr ⟨rfl, _, rfl, rfl⟩
      · simp only [thinkReask]
        split
        · exact Or.inr ⟨rfl, _, rfl, rfl⟩
        · exact Or.inr ⟨rfl, _, rfl, rfl⟩

/-! ## C2 — the parse-failure fallback ladder -/

/-- C2 (amended): against a backend whose initial output fails envelope
parse or schema validation, `think` issues exactly one corrective
re-prompt (the trace holds the initial prompt and one fallback prompt,
which carries no JSON requirement) and, when that re-ask call returns
any text, terminates at tier (b), returning a chat envelope whose
response is the re-ask's trimmed text. Tier (c) — the envelope embedding
the original raw text — is reached only when the corrective call itself
raises. -/
theorem reask_one_corrective (env : ThinkEnv) (rawText fbText : String)
    (h1 : try_call_llm env.llm env.retries (thinkPrompt env) = .ok rawText)
    (h2 : env.msave "llm_transcript" (savedTranscript rawText) = .ok ())
    (h3 : ∀ v, env.jsonParse (pyStrip rawText) = .ok v →
      validateBySchema v llmResponseSchema = false)
    (h4 : try_call_llm env.llm env.retries
      (fallback_prompt env.input rawText) = .ok fbText) :
    (think env).2.1 = ThinkPath.reask ∧
    (think env).2.2 = [thinkPrompt env, fallback_prompt env.input rawText] ∧
    jGet (think env).1 "tool_name" = some (.str "chat") ∧
    jGet (think env).1 "tool_input" =
      some (.obj [("response", .str (pyStrip fbText))]) := by
  simp only [think, h1, h2]
  cases hp : env.jsonParse (pyStrip rawText) with
  | error e =>
      simp only [thinkReask, h4]
      refine ⟨?_, ?_, ?_, ?_⟩ <;> first | rfl | trivial
  | ok v =>
      have hv := h3 v hp
      simp only [hv, Bool.false_eq_true, if_false, thinkReask, h4]
      refine ⟨?_, ?_, ?_, ?_⟩ <;> first | rfl | trivial

/-- C2 counterexample: the claim as stated fails — a backend that always
returns the unparsable text "not json" terminates at tier (b), not at
tier (c): the corrective re-ask succeeds, the trace holds exactly two
prompts (one corrective re-ask), and the returned chat envelope carries
the re-ask's plain text rather than the tier-(c) raw-output embedding. -/
theorem parse_fallback_tier_counterexample :
    (think ⟨"Agent", "hi", [], 3, fun _ _ => Except.ok "not json",
        fun _ => Except.error "Expecting value: line 1 column 1 (char 0)",
        fun _ _ => Except.ok (), Except.ok []⟩).2.1 = ThinkPath.reask ∧
    ThinkPath.reask ≠ ThinkPath.passthrough ∧
    jGet (think ⟨"Agent", "hi", [], 3, fun _ _ => Except.ok "not json",
        fun _ => Except.error "Expecting value: line 1 column 1 (char 0)",
        fun _ _ => Except.ok (), Except.ok []⟩).1 "tool_input" =
      some (.obj [("response", .str "not json")]) ∧
    (think ⟨"Agent", "hi", [], 3, fun _ _ => Except.ok "not json",
        fun _ => Except.error "Expecting value: line 1 column 1 (char 0)",
        fun _ _ => Except.ok (), Except.ok []⟩).2.2.length = 2 := by
  exact ⟨rfl, by decide, rfl, rfl⟩

/-- C2 witness: the amended theorem applied to the concrete
always-unparsable backend. -/
theorem reask_one_corrective_witness :
    (think ⟨"Agent", "hi", [], 3, fun _ _ => Except.ok "not json",
        fun _ => Except.error "Expecting value: line 1 column 1 (char 0)",
        fun _ _ => Except.ok (), Except.ok []⟩).2.1 = ThinkPath.reask ∧
    (think ⟨"Agent", "hi", [], 3, fun _ _ => Except.ok "not json",
        fun _ => Except.error "Expecting value: line 1 column 1 (char 0)",
        fun _ _ => Except.ok (), Except.ok []⟩).2.2 =
      [thinkPrompt ⟨"Agent", "hi", [], 3, fun _ _ => Except.ok "not json",
        fun _ => Except.error "Expecting value: line 1 column 1 (char 0)",
        fun _ _ => Except.ok (), Except.ok []⟩,
       fallback_prompt "hi" "not json"] ∧
    jGet (think ⟨"Agent", "hi", [], 3, fun _ _ => Except.ok "not json",
        fun _ => Except.error "Expecting value: line 1 column 1 (char 0)",
        fun _ _ => Except.ok (), Except.ok []⟩).1 "tool_name" =
      some (.str "chat") ∧
    jGet (think ⟨"Agent", "hi", [], 3, fun _ _ => Except.ok "not json",
        fun _ => Except.error "Expecting value: line 1 column 1 (char 0)",
        fun _ _ => Except.ok (), Except.ok []⟩).1 "tool_input" =
      some (.obj [("response", .str (pyStrip "not json"))]) := by
  exact reask_one_corrective
    ⟨"Agent", "hi", [], 3, fun _ _ => Except.ok "not json",
      fun _ => Except.error "Expecting value: line 1 column 1 (char 0)",
      fun _ _ => Except.ok (), Except.ok []⟩
    "not json" "not json" rfl rfl
    (fun v h => Except.noConfusion h) rfl
